import Mathlib

/-!
Verification of the retrying task executor `Task.__call__` of
`src/fastbots/task.py` (the fastbots repository).

The executor wraps a user-supplied `run` method in a tenacity retry loop:

* `Retrying(wait=wait_fixed(BOT_RETRY_DELAY), stop=stop_after_attempt(BOT_MAX_RETRIES),
  retry=retry_if_result(__is_false__), after=after_log(...))`;
* each attempt constructs a fresh bot (Firefox or Chrome, else `ValueError`),
  enters the bot context, calls `run`, and collects the bot's payload with the
  result stored under the key `"result"`;
* an exception raised by `run` is caught inside the attempt body, sets
  `result = False` and tries to collect the payload (setting it to `None` when
  even that collection fails);
* an exception escaping the attempt body is recorded by tenacity as a failed
  outcome; `retry_if_result` returns `False` for failed outcomes, so tenacity
  re-raises it out of the loop, past the `except RetryError` handler;
* after the loop, a truthy `result` dispatches to `on_success`, a `RetryError`
  dispatches to `on_failure`, and exceptions from either callback are logged
  and swallowed.

The embedding makes the behaviour of the environment (driver construction,
`run`, payload collection, callbacks) an explicit input, and the executor a
function producing the final outcome of `__call__` together with a trace of
observable events (run invocations, waits, callback invocations).
-/

/-- A Python value, as far as the executor inspects one: the executor only ever
asks `value is False` (identity with the `False` singleton) and `if result:`
(truthiness). -/
inductive PyVal where
  | pyBool (b : Bool)
  | pyNone
  | pyInt (n : Int)
  | pyStr (s : String)
  deriving DecidableEq, Repr

/-- Python truthiness of a value (`if result:` in `Task.__call__`). -/
def truthy : PyVal → Bool
  | .pyBool b => b
  | .pyNone => false
  | .pyInt n => n != 0
  | .pyStr s => s != ""

/-- The check `Task.__is_false__`: `return value is False` — identity with the `False`
singleton, not general falsiness. -/
def is_false : PyVal → Bool
  | .pyBool false => true
  | _ => false

/-- Exceptions the environment can raise.  tenacity's own control-flow
exceptions (`RetryError`, `TryAgain`) are not values of this type: the loop
exit carries the `RetryError` case separately. -/
inductive Exc where
  | valueError (msg : String)
  | userExc (code : Nat)
  deriving DecidableEq, Repr

/-- The enum `config.DriverType` together with the possibility of a configured driver
type that is neither of the two known ones (`Task.__call__` raises
`ValueError` for it). -/
inductive DriverType where
  | FIREFOX
  | CHROME
  | OTHER (name : String)
  deriving DecidableEq, Repr

/-- The configuration values `Task.__call__` reads from `fastbots.config`. -/
structure Config where
  BOT_MAX_RETRIES : Nat
  BOT_RETRY_DELAY : Nat
  BOT_DRIVER_TYPE : DriverType
  deriving DecidableEq, Repr

/-- Whether the configured driver type is one of the two known ones. -/
def Config.validDriver (cfg : Config) : Bool :=
  match cfg.BOT_DRIVER_TYPE with
  | .FIREFOX => true
  | .CHROME => true
  | .OTHER _ => false

/-- Modelled from the spec: the `Payload` carrier object (`fastbots/payload.py`
is not in the sources; the spec describes it as a "mapping from string key to
arbitrary value ... created fresh per attempt").  `botId` records which
attempt's bot constructed the object, so that freshness per attempt is
observable; `output_data` is the string-keyed mapping `Task.__call__` writes
`"result"` into. -/
structure Payload where
  botId : Nat
  output_data : List (String × PyVal)
  deriving DecidableEq, Repr

/-- Python dict assignment `d[k] = v`: replace the binding of `k` if present,
otherwise append it. -/
def setKey : List (String × PyVal) → String → PyVal → List (String × PyVal)
  | [], k, v => [(k, v)]
  | (k', v') :: rest, k, v =>
      if k' = k then (k, v) :: rest else (k', v') :: setKey rest k v

/-- The two local variables of `Task.__call__` that survive across attempts:
`result` (initialised `False`) and `payload` (initialised `None`). -/
structure St where
  result : PyVal
  payload : Option Payload
  deriving DecidableEq, Repr

/-- The environment's behaviour for one attempt of the loop body.

* `setupFail e`: constructing the bot, or entering the bot context, raises `e`
  (this happens outside the inner `try` of the body);
* `runReturns v data`: `run` returns `v`, and the bot's payload holds `data`;
* `runRaises e collect`: `run` raises `e`; `collect = some data` means
  `save_html`/`save_screenshot`/payload access then succeed with payload
  `data`, `collect = none` means that collection itself raises, so the body
  sets `payload = None`. -/
inductive AttemptEnv where
  | setupFail (e : Exc)
  | runReturns (v : PyVal) (data : List (String × PyVal))
  | runRaises (e : Exc) (collect : Option (List (String × PyVal)))
  deriving DecidableEq, Repr

/-- Observable events of one execution of `Task.__call__`. -/
inductive Event where
  | runInvoked (attempt : Nat)
  | waited (delay : Nat)
  | onSuccessCalled (p : Option Payload)
  | onFailureCalled (p : Option Payload)
  deriving DecidableEq, Repr

/-- Outcome of one attempt body (the code under `with attempt:`). -/
inductive BodyOut where
  | ok
  | exc (e : Exc)
  deriving DecidableEq, Repr

/-- One execution of the attempt body of `Task.__call__` (lines 103–131):
construct the bot for the configured driver type (raising `ValueError` for an
unknown one), enter its context, call `run`, store the result into the
collected payload under `"result"`; an exception from `run` is caught, sets
`result = False` and falls back to collecting the payload, setting it to
`None` if even that fails.  `a` is the attempt number, used as the identity of
the freshly constructed bot/payload. -/
def attemptBody (cfg : Config) (a : Nat) (e : AttemptEnv) (st : St) :
    St × BodyOut × List Event :=
  match cfg.BOT_DRIVER_TYPE with
  | .OTHER name =>
      (st, .exc (.valueError ("Unknown Driver Type: " ++ name)), [])
  | _ =>
    match e with
    | .setupFail ex => (st, .exc ex, [])
    | .runReturns v data =>
        (⟨v, some ⟨a, setKey data "result" v⟩⟩, .ok, [.runInvoked a])
    | .runRaises _ (some data) =>
        (⟨.pyBool false, some ⟨a, setKey data "result" (.pyBool false)⟩⟩, .ok,
          [.runInvoked a])
    | .runRaises _ none =>
        (⟨.pyBool false, none⟩, .ok, [.runInvoked a])

/-- How the `for attempt in Retrying(...)` loop of `Task.__call__` ends. -/
inductive LoopExit where
  | normal (st : St)
  | retryErr (st : St)
  | uncaughtE (e : Exc) (st : St)
  deriving DecidableEq, Repr

/-- The tenacity `Retrying` loop of `Task.__call__`, lines 97–134.  `a` is the
current attempt number; `fuel` is the number of retries still allowed, i.e.
`BOT_MAX_RETRIES - a` (tenacity's `stop_after_attempt(n)` stops as soon as the
attempt number reaches `n`, but always makes the first attempt).

Faithful to tenacity's `BaseRetrying.iter` with
`retry=retry_if_result(__is_false__)`:

* if an exception escapes the attempt body, the outcome is failed;
  `retry_if_result` returns `False` for failed outcomes, so the loop re-raises
  the exception (`fut.result()`), which then bypasses the `except RetryError`
  handler of `__call__`;
* otherwise lines 133–134 store `result` into the retry state, and the loop
  retries exactly when `__is_false__(result)`; when it retries it first checks
  the stop condition (raising `RetryError`) and otherwise sleeps
  `BOT_RETRY_DELAY` and starts the next attempt. -/
def retryingLoop (cfg : Config) (env : Nat → AttemptEnv) :
    Nat → Nat → St → LoopExit × List Event
  | fuel, a, st =>
    match attemptBody cfg a (env a) st with
    | (st', .exc e, evs) => (.uncaughtE e st', evs)
    | (st', .ok, evs) =>
      if is_false st'.result then
        match fuel with
        | 0 => (.retryErr st', evs)
        | fuel' + 1 =>
            let rest := retryingLoop cfg env fuel' (a + 1) st'
            (rest.1, evs ++ .waited cfg.BOT_RETRY_DELAY :: rest.2)
      else (.normal st', evs)

/-- Behaviour of a user-supplied callback (`on_success` / `on_failure`): it
either returns a value (`none` modelling Python `None`) or raises. -/
inductive CbBehavior where
  | returnsV (v : Option PyVal)
  | raisesE (e : Exc)
  deriving DecidableEq, Repr

/-- The two callbacks of a concrete `Task` subclass. -/
structure CallbackEnv where
  onSuccessB : CbBehavior
  onFailureB : CbBehavior
  deriving DecidableEq, Repr

/-- The outcome of `Task.__call__` for its caller: a returned value (`none` is
Python `None`, from the implicit `return` paths) or an escaped exception. -/
inductive CallResult where
  | returns (v : Option PyVal)
  | raises (e : Exc)
  deriving DecidableEq, Repr

/-- The retry loop exactly as `Task.__call__` enters it: attempt number 1,
`result = False`, `payload = None`, and fuel for `BOT_MAX_RETRIES` total
attempts (tenacity always makes the first attempt). -/
def callLoop (cfg : Config) (env : Nat → AttemptEnv) : LoopExit × List Event :=
  retryingLoop cfg env (cfg.BOT_MAX_RETRIES - 1) 1 ⟨.pyBool false, none⟩

/-- The executor `Task.__call__` (lines 84–150): run the retry loop from attempt 1 with
`result = False`, `payload = None`; on normal loop exit dispatch to
`on_success` if `result` is truthy; on `RetryError` dispatch to `on_failure`;
exceptions raised inside either callback are logged and swallowed (the call
then returns `None`); any other exception escaping the loop escapes
`__call__`. -/
def taskCall (cfg : Config) (env : Nat → AttemptEnv) (cbs : CallbackEnv) :
    CallResult × List Event :=
  match (callLoop cfg env).1 with
  | .uncaughtE e _ => (.raises e, (callLoop cfg env).2)
  | .normal st =>
      if truthy st.result then
        match cbs.onSuccessB with
        | .returnsV v =>
            (.returns v, (callLoop cfg env).2 ++ [.onSuccessCalled st.payload])
        | .raisesE _ =>
            (.returns none, (callLoop cfg env).2 ++ [.onSuccessCalled st.payload])
      else (.returns none, (callLoop cfg env).2)
  | .retryErr st =>
      match cbs.onFailureB with
      | .returnsV v =>
          (.returns v, (callLoop cfg env).2 ++ [.onFailureCalled st.payload])
      | .raisesE _ =>
          (.returns none, (callLoop cfg env).2 ++ [.onFailureCalled st.payload])

/-- Is this event an invocation of `run`? -/
def isRunEv : Event → Bool
  | .runInvoked _ => true
  | _ => false

/-- Is this event an invocation of `on_success`? -/
def isSuccessEv : Event → Bool
  | .onSuccessCalled _ => true
  | _ => false

/-- Is this event an invocation of `on_failure`? -/
def isFailureEv : Event → Bool
  | .onFailureCalled _ => true
  | _ => false

/-- Is this event a wait between attempts? -/
def isWaitEv : Event → Bool
  | .waited _ => true
  | _ => false

/-- Number of `run` invocations in a trace. -/
def countRun (tr : List Event) : Nat := tr.countP (fun e => isRunEv e)

/-- Number of `on_success` invocations in a trace. -/
def countSuccess (tr : List Event) : Nat := tr.countP (fun e => isSuccessEv e)

/-- Number of `on_failure` invocations in a trace. -/
def countFailure (tr : List Event) : Nat := tr.countP (fun e => isFailureEv e)

/-- Number of waits in a trace. -/
def countWait (tr : List Event) : Nat := tr.countP (fun e => isWaitEv e)

/-- The state `Task.__call__` is left with after an attempt body that did not
raise: `run`'s return value (or `False` after a caught `run` exception)
together with the freshly collected payload. -/
def bodyStepSt (a : Nat) (e : AttemptEnv) (st : St) : St :=
  match e with
  | .setupFail _ => st
  | .runReturns v data => ⟨v, some ⟨a, setKey data "result" v⟩⟩
  | .runRaises _ (some data) =>
      ⟨.pyBool false, some ⟨a, setKey data "result" (.pyBool false)⟩⟩
  | .runRaises _ none => ⟨.pyBool false, none⟩

/-- Does the attempt body, having completed without an escaping exception,
leave `result` identically `False` (so that tenacity retries)?  This is
`run` returning the `False` singleton or raising. -/
def failedAttempt : AttemptEnv → Bool
  | .setupFail _ => false
  | .runReturns v _ => is_false v
  | .runRaises _ _ => true

/-- The value the body leaves in the `payload` variable after attempt `a`
completed without an escaping exception. -/
def collectedPayload (a : Nat) : AttemptEnv → Option Payload
  | .setupFail _ => none
  | .runReturns v data => some ⟨a, setKey data "result" v⟩
  | .runRaises _ (some data) => some ⟨a, setKey data "result" (.pyBool false)⟩
  | .runRaises _ none => none


/-! Concrete inputs used by the closed witness and counterexample theorems. -/

/-- A sample configuration: 3 attempts, delay 1, Firefox driver. -/
def cfgSample : Config := ⟨3, 1, .FIREFOX⟩

/-- An environment whose `run` raises on every attempt and whose fallback
payload collection also fails. -/
def envAllRaise : Nat → AttemptEnv := fun _ => .runRaises (.userExc 0) none

/-- An environment whose `run` returns `True` with an empty payload. -/
def envAllTrue : Nat → AttemptEnv := fun _ => .runReturns (.pyBool true) []

/-- An environment whose `run` returns Python `None`. -/
def envAllNone : Nat → AttemptEnv := fun _ => .runReturns .pyNone []

/-- An environment whose bot setup raises on every attempt. -/
def envSetupRaise : Nat → AttemptEnv := fun _ => .setupFail (.userExc 7)

/-- An environment where attempt 1 raises in `run` but collects a payload,
and every later attempt raises in `run` with the payload collection itself
failing. -/
def envPayloadLost : Nat → AttemptEnv := fun a =>
  if a = 1 then .runRaises (.userExc 1) (some [("k", .pyInt 9)])
  else .runRaises (.userExc 2) none

/-- Callbacks that both return `None`. -/
def cbsReturn : CallbackEnv := ⟨.returnsV none, .returnsV none⟩

/-- Callbacks that both raise. -/
def cbsRaise : CallbackEnv := ⟨.raisesE (.userExc 11), .raisesE (.userExc 12)⟩


@[simp] lemma isRunEv_run (b : Nat) : isRunEv (.runInvoked b) = true := rfl

@[simp] lemma isRunEv_wait (d : Nat) : isRunEv (.waited d) = false := rfl

@[simp] lemma isRunEv_succ (p : Option Payload) :
    isRunEv (.onSuccessCalled p) = false := rfl

@[simp] lemma isRunEv_fail (p : Option Payload) :
    isRunEv (.onFailureCalled p) = false := rfl

@[simp] lemma isWaitEv_run (b : Nat) : isWaitEv (.runInvoked b) = false := rfl

@[simp] lemma isWaitEv_wait (d : Nat) : isWaitEv (.waited d) = true := rfl

@[simp] lemma isWaitEv_succ (p : Option Payload) :
    isWaitEv (.onSuccessCalled p) = false := rfl

@[simp] lemma isWaitEv_fail (p : Option Payload) :
    isWaitEv (.onFailureCalled p) = false := rfl

@[simp] lemma isSuccessEv_run (b : Nat) : isSuccessEv (.runInvoked b) = false := rfl

@[simp] lemma isSuccessEv_wait (d : Nat) : isSuccessEv (.waited d) = false := rfl

@[simp] lemma isSuccessEv_succ (p : Option Payload) :
    isSuccessEv (.onSuccessCalled p) = true := rfl

@[simp] lemma isSuccessEv_fail (p : Option Payload) :
    isSuccessEv (.onFailureCalled p) = false := rfl

@[simp] lemma isFailureEv_run (b : Nat) : isFailureEv (.runInvoked b) = false := rfl

@[simp] lemma isFailureEv_wait (d : Nat) : isFailureEv (.waited d) = false := rfl

@[simp] lemma isFailureEv_succ (p : Option Payload) :
    isFailureEv (.onSuccessCalled p) = false := rfl

@[simp] lemma isFailureEv_fail (p : Option Payload) :
    isFailureEv (.onFailureCalled p) = true := rfl

@[simp] lemma countRun_nil : countRun [] = 0 := rfl

@[simp] lemma countRun_cons (ev : Event) (tr : List Event) :
    countRun (ev :: tr) = countRun tr + if isRunEv ev then 1 else 0 :=
  List.countP_cons _ _ _

@[simp] lemma countRun_append (l₁ l₂ : List Event) :
    countRun (l₁ ++ l₂) = countRun l₁ + countRun l₂ :=
  List.countP_append _ _ _

@[simp] lemma countWait_nil : countWait [] = 0 := rfl

@[simp] lemma countWait_cons (ev : Event) (tr : List Event) :
    countWait (ev :: tr) = countWait tr + if isWaitEv ev then 1 else 0 :=
  List.countP_cons _ _ _

@[simp] lemma countWait_append (l₁ l₂ : List Event) :
    countWait (l₁ ++ l₂) = countWait l₁ + countWait l₂ :=
  List.countP_append _ _ _

@[simp] lemma countSuccess_nil : countSuccess [] = 0 := rfl

@[simp] lemma countSuccess_cons (ev : Event) (tr : List Event) :
    countSuccess (ev :: tr) = countSuccess tr + if isSuccessEv ev then 1 else 0 :=
  List.countP_cons _ _ _

@[simp] lemma countSuccess_append (l₁ l₂ : List Event) :
    countSuccess (l₁ ++ l₂) = countSuccess l₁ + countSuccess l₂ :=
  List.countP_append _ _ _

@[simp] lemma countFailure_nil : countFailure [] = 0 := rfl

@[simp] lemma countFailure_cons (ev : Event) (tr : List Event) :
    countFailure (ev :: tr) = countFailure tr + if isFailureEv ev then 1 else 0 :=
  List.countP_cons _ _ _

@[simp] lemma countFailure_append (l₁ l₂ : List Event) :
    countFailure (l₁ ++ l₂) = countFailure l₁ + countFailure l₂ :=
  List.countP_append _ _ _

lemma is_false_iff (v : PyVal) : is_false v = true ↔ v = .pyBool false := by
  cases v with
  | pyBool b => cases b <;> simp [is_false]
  | pyNone => simp [is_false]
  | pyInt n => simp [is_false]
  | pyStr s => simp [is_false]

lemma attemptBody_valid (cfg : Config) (hv : cfg.validDriver = true)
    (a : Nat) (e : AttemptEnv) (st : St) :
    attemptBody cfg a e st =
      (bodyStepSt a e st,
       match e with | .setupFail ex => .exc ex | _ => .ok,
       match e with | .setupFail _ => [] | _ => [.runInvoked a]) := by
  unfold attemptBody Config.validDriver at *
  cases h : cfg.BOT_DRIVER_TYPE <;> rw [h] at hv <;> simp at hv <;>
    rcases e with _ | _ | ⟨_, _ | _⟩ <;> rfl

lemma attemptBody_ok (cfg : Config) (a : Nat) (e : AttemptEnv) (st : St)
    (h : (attemptBody cfg a e st).2.1 = .ok) :
    attemptBody cfg a e st = (bodyStepSt a e st, .ok, [.runInvoked a]) := by
  unfold attemptBody at *
  cases hd : cfg.BOT_DRIVER_TYPE <;> rw [hd] at h <;>
    rcases e with _ | _ | ⟨_, _ | _⟩ <;> simp_all <;> rfl

lemma bodyStepSt_result (a : Nat) (e : AttemptEnv) (st : St)
    (hne : ∀ ex, e ≠ .setupFail ex) :
    is_false (bodyStepSt a e st).result = failedAttempt e := by
  rcases e with ex | _ | ⟨_, _ | _⟩
  · exact absurd rfl (hne ex)
  · rfl
  · rfl
  · rfl

lemma bodyStepSt_payload (a : Nat) (e : AttemptEnv) (st : St)
    (hne : ∀ ex, e ≠ .setupFail ex) :
    (bodyStepSt a e st).payload = collectedPayload a e := by
  rcases e with ex | _ | ⟨_, _ | _⟩
  · exact absurd rfl (hne ex)
  · rfl
  · rfl
  · rfl

lemma attemptBody_events (cfg : Config) (a : Nat) (e : AttemptEnv) (st : St) :
    (attemptBody cfg a e st).2.2 = [] ∨
      (attemptBody cfg a e st).2.2 = [.runInvoked a] := by
  unfold attemptBody
  cases cfg.BOT_DRIVER_TYPE <;> rcases e with _ | _ | ⟨_, _ | _⟩ <;> simp

/-- One-step unfolding of the retry loop. -/
lemma retryingLoop_eq (cfg : Config) (env : Nat → AttemptEnv)
    (fuel a : Nat) (st : St) :
    retryingLoop cfg env fuel a st =
      match attemptBody cfg a (env a) st with
      | (st', .exc e, evs) => (.uncaughtE e st', evs)
      | (st', .ok, evs) =>
        if is_false st'.result then
          match fuel with
          | 0 => (.retryErr st', evs)
          | fuel' + 1 =>
              let rest := retryingLoop cfg env fuel' (a + 1) st'
              (rest.1, evs ++ .waited cfg.BOT_RETRY_DELAY :: rest.2)
        else (.normal st', evs) := by
  rw [retryingLoop]

lemma retryingLoop_exc {cfg : Config} {env : Nat → AttemptEnv}
    {a : Nat} {st st' : St} {e : Exc} {evs : List Event} (fuel : Nat)
    (hb : attemptBody cfg a (env a) st = (st', .exc e, evs)) :
    retryingLoop cfg env fuel a st = (.uncaughtE e st', evs) := by
  rw [retryingLoop_eq, hb]

lemma retryingLoop_normal {cfg : Config} {env : Nat → AttemptEnv}
    {a : Nat} {st st' : St} {evs : List Event} (fuel : Nat)
    (hb : attemptBody cfg a (env a) st = (st', .ok, evs))
    (hf : is_false st'.result = false) :
    retryingLoop cfg env fuel a st = (.normal st', evs) := by
  rw [retryingLoop_eq, hb]
  simp [hf]

lemma retryingLoop_stop {cfg : Config} {env : Nat → AttemptEnv}
    {a : Nat} {st st' : St} {evs : List Event}
    (hb : attemptBody cfg a (env a) st = (st', .ok, evs))
    (hf : is_false st'.result = true) :
    retryingLoop cfg env 0 a st = (.retryErr st', evs) := by
  rw [retryingLoop_eq, hb]
  simp [hf]

lemma retryingLoop_retry {cfg : Config} {env : Nat → AttemptEnv}
    {a : Nat} {st st' : St} {evs : List Event} (fuel : Nat)
    (hb : attemptBody cfg a (env a) st = (st', .ok, evs))
    (hf : is_false st'.result = true) :
    retryingLoop cfg env (fuel + 1) a st =
      ((retryingLoop cfg env fuel (a + 1) st').1,
       evs ++ .waited cfg.BOT_RETRY_DELAY ::
         (retryingLoop cfg env fuel (a + 1) st').2) := by
  rw [retryingLoop_eq, hb]
  simp [hf]

/-- Every event the retry loop itself emits is either a `run` invocation or a
wait of exactly the configured `BOT_RETRY_DELAY`: the loop emits no callback
events and no other delay. -/
lemma loop_events_shape (cfg : Config) (env : Nat → AttemptEnv) :
    ∀ fuel a st, ∀ ev ∈ (retryingLoop cfg env fuel a st).2,
      (∃ b, ev = .runInvoked b) ∨ ev = .waited cfg.BOT_RETRY_DELAY := by
  intro fuel
  induction fuel with
  | zero =>
    intro a st ev hev
    rcases hb : attemptBody cfg a (env a) st with ⟨st', out, evs⟩
    have hevs := attemptBody_events cfg a (env a) st
    rw [hb] at hevs
    have hmem : ev ∈ evs := by
      cases out with
      | exc e => rwa [retryingLoop_exc 0 hb] at hev
      | ok =>
        cases hf : is_false st'.result
        · rwa [retryingLoop_normal 0 hb hf] at hev
        · rwa [retryingLoop_stop hb hf] at hev
    rcases hevs with h | h <;> subst h <;> simp_all
  | succ f ih =>
    intro a st ev hev
    rcases hb : attemptBody cfg a (env a) st with ⟨st', out, evs⟩
    have hevs := attemptBody_events cfg a (env a) st
    rw [hb] at hevs
    cases out with
    | exc e =>
      rw [retryingLoop_exc (f + 1) hb] at hev
      rcases hevs with h | h <;> subst h <;> simp_all
    | ok =>
      cases hf : is_false st'.result
      · rw [retryingLoop_normal (f + 1) hb hf] at hev
        rcases hevs with h | h <;> subst h <;> simp_all
      · rw [retryingLoop_retry f hb hf] at hev
        simp only [List.mem_append, List.mem_cons] at hev
        rcases hev with h1 | h1 | h1
        · rcases hevs with h | h <;> subst h <;> simp_all
        · exact Or.inr h1
        · exact ih (a + 1) st' ev h1

lemma failedAttempt_not_setup {e : AttemptEnv} (h : failedAttempt e = true) :
    ∀ ex, e ≠ .setupFail ex := by
  rcases e with _ | _ | _ <;> simp_all [failedAttempt]

lemma attemptBody_not_setup (cfg : Config) (hv : cfg.validDriver = true)
    (a : Nat) (e : AttemptEnv) (st : St) (hne : ∀ ex, e ≠ .setupFail ex) :
    attemptBody cfg a e st = (bodyStepSt a e st, .ok, [.runInvoked a]) := by
  rcases e with ex | _ | ⟨_, _ | _⟩
  · exact absurd rfl (hne ex)
  · rw [attemptBody_valid cfg hv]
  · rw [attemptBody_valid cfg hv]
  · rw [attemptBody_valid cfg hv]

lemma attemptBody_ok_char {cfg : Config} {a : Nat} {e : AttemptEnv} {st stB : St}
    {evs : List Event} (h : attemptBody cfg a e st = (stB, .ok, evs)) :
    stB = bodyStepSt a e st ∧ evs = [.runInvoked a] ∧ ∀ ex, e ≠ .setupFail ex := by
  unfold attemptBody at h
  cases hdr : cfg.BOT_DRIVER_TYPE <;> rw [hdr] at h <;>
    rcases e with _ | _ | ⟨_, _ | _⟩ <;> simp_all [bodyStepSt]

lemma attemptBody_exc_events {cfg : Config} {a : Nat} {e : AttemptEnv}
    {st stB : St} {ex : Exc} {evs : List Event}
    (h : attemptBody cfg a e st = (stB, .exc ex, evs)) : evs = [] := by
  unfold attemptBody at h
  cases hdr : cfg.BOT_DRIVER_TYPE <;> rw [hdr] at h <;>
    rcases e with _ | _ | ⟨_, _ | _⟩ <;> simp_all

lemma bodyStepSt_failed (a : Nat) (e : AttemptEnv) (st : St)
    (hfa : failedAttempt e = true) :
    bodyStepSt a e st = ⟨.pyBool false, collectedPayload a e⟩ := by
  rcases e with ex | ⟨v, data⟩ | ⟨ex, _ | data⟩
  · simp [failedAttempt] at hfa
  · have hv : v = .pyBool false := by
      rw [← is_false_iff]
      simpa [failedAttempt] using hfa
    subst hv
    rfl
  · rfl
  · rfl

/-- When the driver type is valid and no attempt's setup raises, the loop
never re-raises an exception. -/
lemma loop_no_uncaught (cfg : Config) (env : Nat → AttemptEnv)
    (hv : cfg.validDriver = true) (hs : ∀ k ex, env k ≠ .setupFail ex) :
    ∀ fuel a st e stx, (retryingLoop cfg env fuel a st).1 ≠ .uncaughtE e stx := by
  intro fuel
  induction fuel with
  | zero =>
    intro a st e stx
    have hb := attemptBody_not_setup cfg hv a (env a) st (hs a)
    cases hf : is_false (bodyStepSt a (env a) st).result
    · rw [retryingLoop_normal 0 hb hf]
      simp
    · rw [retryingLoop_stop hb hf]
      simp
  | succ f ih =>
    intro a st e stx
    have hb := attemptBody_not_setup cfg hv a (env a) st (hs a)
    cases hf : is_false (bodyStepSt a (env a) st).result
    · rw [retryingLoop_normal (f + 1) hb hf]
      simp
    · rw [retryingLoop_retry f hb hf]
      exact ih (a + 1) _ e stx

/-- When the driver type is valid and attempt `a`'s setup does not raise, the
loop starting at attempt `a` invokes `run` at attempt `a`. -/
lemma loop_first_run (cfg : Config) (env : Nat → AttemptEnv)
    (hv : cfg.validDriver = true) (fuel a : Nat) (st : St)
    (hne : ∀ ex, env a ≠ .setupFail ex) :
    .runInvoked a ∈ (retryingLoop cfg env fuel a st).2 := by
  have hb := attemptBody_not_setup cfg hv a (env a) st hne
  cases hf : is_false (bodyStepSt a (env a) st).result
  · rw [retryingLoop_normal fuel hb hf]
    simp
  · cases fuel with
    | zero =>
      rw [retryingLoop_stop hb hf]
      simp
    | succ f =>
      rw [retryingLoop_retry f hb hf]
      simp

/-- When the loop does not re-raise an exception, it waits exactly once
between consecutive attempts: one fewer wait than `run` invocations. -/
lemma loop_wait_count (cfg : Config) (env : Nat → AttemptEnv) :
    ∀ fuel a st,
      (∀ e stx, (retryingLoop cfg env fuel a st).1 ≠ .uncaughtE e stx) →
      countWait (retryingLoop cfg env fuel a st).2 + 1 =
        countRun (retryingLoop cfg env fuel a st).2 := by
  intro fuel
  induction fuel with
  | zero =>
    intro a st hne
    rcases hb : attemptBody cfg a (env a) st with ⟨stB, out, evs⟩
    cases out with
    | exc e => exact absurd (by rw [retryingLoop_exc 0 hb]) (hne e stB)
    | ok =>
      obtain ⟨-, hevs, -⟩ := attemptBody_ok_char hb
      subst hevs
      cases hf : is_false stB.result
      · rw [retryingLoop_normal 0 hb hf]
        simp
      · rw [retryingLoop_stop hb hf]
        simp
  | succ f ih =>
    intro a st hne
    rcases hb : attemptBody cfg a (env a) st with ⟨stB, out, evs⟩
    cases out with
    | exc e => exact absurd (by rw [retryingLoop_exc (f + 1) hb]) (hne e stB)
    | ok =>
      obtain ⟨-, hevs, -⟩ := attemptBody_ok_char hb
      subst hevs
      cases hf : is_false stB.result
      · rw [retryingLoop_normal (f + 1) hb hf]
        simp
      · have hrec := ih (a + 1) stB (by
          intro e stx hcon
          exact hne e stx (by rw [retryingLoop_retry f hb hf]; exact hcon))
        rw [retryingLoop_retry f hb hf]
        simp only [List.cons_append, List.nil_append, countWait_cons,
          countRun_cons, isWaitEv_run, isWaitEv_wait, isRunEv_run, isRunEv_wait]
        simp only [if_true, if_false]
        omega

/-- When every attempt completes its body with a `False` result (`run`
returning the `False` singleton or raising), the loop raises `RetryError`
after consuming all its fuel: one `run` invocation per allowed attempt, one
wait between consecutive attempts, and the final state from the last
attempt. -/
lemma loop_all_failed (cfg : Config) (env : Nat → AttemptEnv)
    (hv : cfg.validDriver = true) (hf : ∀ k, failedAttempt (env k) = true) :
    ∀ fuel a st,
      (retryingLoop cfg env fuel a st).1 =
        .retryErr ⟨.pyBool false, collectedPayload (a + fuel) (env (a + fuel))⟩ ∧
      countRun (retryingLoop cfg env fuel a st).2 = fuel + 1 ∧
      countWait (retryingLoop cfg env fuel a st).2 = fuel := by
  intro fuel
  induction fuel with
  | zero =>
    intro a st
    have hb := attemptBody_not_setup cfg hv a (env a) st
      (failedAttempt_not_setup (hf a))
    rw [bodyStepSt_failed a (env a) st (hf a)] at hb
    rw [retryingLoop_stop hb rfl]
    simp
  | succ f ih =>
    intro a st
    have hb := attemptBody_not_setup cfg hv a (env a) st
      (failedAttempt_not_setup (hf a))
    rw [bodyStepSt_failed a (env a) st (hf a)] at hb
    rw [retryingLoop_retry f hb rfl]
    have hrec := ih (a + 1) ⟨.pyBool false, collectedPayload a (env a)⟩
    have hadd : a + 1 + f = a + (f + 1) := by omega
    rw [hadd] at hrec
    obtain ⟨h1, h2, h3⟩ := hrec
    refine ⟨h1, ?_, ?_⟩
    · simp
      omega
    · simp
      omega

/-- If the loop exits normally, the last attempt's `run` returned a value
that is not the `False` singleton, and the final state carries that value
and the payload freshly collected by that attempt. -/
lemma loop_normal_char (cfg : Config) (env : Nat → AttemptEnv) :
    ∀ fuel a st st', (retryingLoop cfg env fuel a st).1 = .normal st' →
      ∃ b v data, env b = .runReturns v data ∧ is_false v = false ∧
        st' = ⟨v, some ⟨b, setKey data "result" v⟩⟩ ∧
        .runInvoked b ∈ (retryingLoop cfg env fuel a st).2 := by
  intro fuel
  induction fuel with
  | zero =>
    intro a st st' hn
    rcases hb : attemptBody cfg a (env a) st with ⟨stB, out, evs⟩
    cases out with
    | exc e =>
      rw [retryingLoop_exc 0 hb] at hn
      exact absurd hn (by simp)
    | ok =>
      obtain ⟨hst, hevs, hns⟩ := attemptBody_ok_char hb
      cases hf : is_false stB.result
      · rw [retryingLoop_normal 0 hb hf] at hn ⊢
        rcases hEnv : env a with ex | ⟨v, data⟩ | ⟨ex, c⟩
        · exact absurd hEnv (hns ex)
        · rw [hEnv] at hst
          simp only [bodyStepSt] at hst
          refine ⟨a, v, data, hEnv, ?_, ?_, ?_⟩
          · rw [hst] at hf
            exact hf
          · have hinj : stB = st' := by simpa using hn
            rw [← hinj]
            exact hst
          · rw [hevs]
            simp
        · rw [hEnv] at hst
          rcases c with _ | data <;> simp only [bodyStepSt] at hst <;>
            rw [hst] at hf <;> simp [is_false] at hf
      · rw [retryingLoop_stop hb hf] at hn
        exact absurd hn (by simp)
  | succ f ih =>
    intro a st st' hn
    rcases hb : attemptBody cfg a (env a) st with ⟨stB, out, evs⟩
    cases out with
    | exc e =>
      rw [retryingLoop_exc (f + 1) hb] at hn
      exact absurd hn (by simp)
    | ok =>
      obtain ⟨hst, hevs, hns⟩ := attemptBody_ok_char hb
      cases hf : is_false stB.result
      · rw [retryingLoop_normal (f + 1) hb hf] at hn ⊢
        rcases hEnv : env a with ex | ⟨v, data⟩ | ⟨ex, c⟩
        · exact absurd hEnv (hns ex)
        · rw [hEnv] at hst
          simp only [bodyStepSt] at hst
          refine ⟨a, v, data, hEnv, ?_, ?_, ?_⟩
          · rw [hst] at hf
            exact hf
          · have hinj : stB = st' := by simpa using hn
            rw [← hinj]
            exact hst
          · rw [hevs]
            simp
        · rw [hEnv] at hst
          rcases c with _ | data <;> simp only [bodyStepSt] at hst <;>
            rw [hst] at hf <;> simp [is_false] at hf
      · rw [retryingLoop_retry f hb hf] at hn ⊢
        simp only at hn
        obtain ⟨b, v, data, h1, h2, h3, h4⟩ := ih (a + 1) stB st' hn
        refine ⟨b, v, data, h1, h2, h3, ?_⟩
        simp only [List.mem_append, List.mem_cons]
        exact Or.inr (Or.inr h4)

/-- If attempt `b`'s `run` was invoked and `run` at `b` returns a value other
than the `False` singleton, the loop exits normally at attempt `b` with that
value and that attempt's payload. -/
lemma loop_run_char (cfg : Config) (env : Nat → AttemptEnv) :
    ∀ fuel a st b v data,
      .runInvoked b ∈ (retryingLoop cfg env fuel a st).2 →
      env b = .runReturns v data → is_false v = false →
      (retryingLoop cfg env fuel a st).1 =
        .normal ⟨v, some ⟨b, setKey data "result" v⟩⟩ := by
  intro fuel
  induction fuel with
  | zero =>
    intro a st b v data hmem hEnv hfv
    rcases hb : attemptBody cfg a (env a) st with ⟨stB, out, evs⟩
    cases out with
    | exc e =>
      rw [retryingLoop_exc 0 hb] at hmem
      rw [attemptBody_exc_events hb] at hmem
      simp at hmem
    | ok =>
      obtain ⟨hst, hevs, -⟩ := attemptBody_ok_char hb
      have hba : b = a := by
        cases hf : is_false stB.result
        · rw [retryingLoop_normal 0 hb hf] at hmem
          rw [hevs] at hmem
          simpa using hmem
        · rw [retryingLoop_stop hb hf] at hmem
          rw [hevs] at hmem
          simpa using hmem
      subst hba
      rw [hEnv] at hst
      simp only [bodyStepSt] at hst
      have hf : is_false stB.result = false := by
        rw [hst]
        exact hfv
      rw [retryingLoop_normal 0 hb hf, hst]
  | succ f ih =>
    intro a st b v data hmem hEnv hfv
    rcases hb : attemptBody cfg a (env a) st with ⟨stB, out, evs⟩
    cases out with
    | exc e =>
      rw [retryingLoop_exc (f + 1) hb] at hmem
      rw [attemptBody_exc_events hb] at hmem
      simp at hmem
    | ok =>
      obtain ⟨hst, hevs, -⟩ := attemptBody_ok_char hb
      cases hf : is_false stB.result
      · rw [retryingLoop_normal (f + 1) hb hf] at hmem ⊢
        rw [hevs] at hmem
        have hba : b = a := by simpa using hmem
        subst hba
        rw [hEnv] at hst
        simp only [bodyStepSt] at hst
        rw [hst]
      · rw [retryingLoop_retry f hb hf] at hmem ⊢
        rw [hevs] at hmem
        simp only [List.cons_append, List.nil_append, List.mem_cons] at hmem
        rcases hmem with h1 | h1 | h1
        · have hba : b = a := by simpa using h1
          subst hba
          rw [hEnv] at hst
          simp only [bodyStepSt] at hst
          rw [hst] at hf
          rw [hfv] at hf
          exact absurd hf (by simp)
        · exact absurd h1 (by simp)
        · exact ih (a + 1) stB b v data h1 hEnv hfv

/-- When the driver is valid and no setup raises, a failed attempt strictly
before the fuel bound is followed by another `run` invocation. -/
lemma loop_retry_continues (cfg : Config) (env : Nat → AttemptEnv)
    (hv : cfg.validDriver = true) (hs : ∀ k ex, env k ≠ .setupFail ex) :
    ∀ fuel a st b,
      .runInvoked b ∈ (retryingLoop cfg env fuel a st).2 →
      failedAttempt (env b) = true → b < a + fuel →
      .runInvoked (b + 1) ∈ (retryingLoop cfg env fuel a st).2 := by
  intro fuel
  induction fuel with
  | zero =>
    intro a st b hmem hfa hlt
    have hb := attemptBody_not_setup cfg hv a (env a) st (hs a)
    have hba : b = a := by
      cases hf : is_false (bodyStepSt a (env a) st).result
      · rw [retryingLoop_normal 0 hb hf] at hmem
        simpa using hmem
      · rw [retryingLoop_stop hb hf] at hmem
        simpa using hmem
    omega
  | succ f ih =>
    intro a st b hmem hfa hlt
    have hb := attemptBody_not_setup cfg hv a (env a) st (hs a)
    cases hf : is_false (bodyStepSt a (env a) st).result
    · rw [retryingLoop_normal (f + 1) hb hf] at hmem
      have hba : b = a := by simpa using hmem
      subst hba
      rw [bodyStepSt_result b (env b) st (hs b)] at hf
      rw [hfa] at hf
      exact absurd hf (by simp)
    · rw [retryingLoop_retry f hb hf] at hmem ⊢
      simp only [List.cons_append, List.nil_append, List.mem_cons] at hmem ⊢
      rcases hmem with h1 | h1 | h1
      · have hba : b = a := by simpa using h1
        subst hba
        refine Or.inr (Or.inr ?_)
        exact loop_first_run cfg env hv f (b + 1) _ (hs (b + 1))
      · exact absurd h1 (by simp)
      · exact Or.inr (Or.inr (ih (a + 1) _ b h1 hfa (by omega)))

lemma callLoop_eq (cfg : Config) (env : Nat → AttemptEnv) :
    callLoop cfg env =
      retryingLoop cfg env (cfg.BOT_MAX_RETRIES - 1) 1 ⟨.pyBool false, none⟩ :=
  rfl

/-- The retry loop itself never invokes a callback. -/
lemma loop_no_callbacks (cfg : Config) (env : Nat → AttemptEnv)
    (fuel a : Nat) (st : St) :
    countSuccess (retryingLoop cfg env fuel a st).2 = 0 ∧
    countFailure (retryingLoop cfg env fuel a st).2 = 0 := by
  constructor <;>
  · apply List.countP_eq_zero.mpr
    intro ev hev
    rcases loop_events_shape cfg env fuel a st ev hev with ⟨b, rfl⟩ | rfl <;> simp

lemma truthy_is_false {v : PyVal} (h : truthy v = true) : is_false v = false := by
  rcases v with b | _ | _ | _
  · cases b
    · simp [truthy] at h
    · rfl
  · simp [truthy] at h
  · rfl
  · rfl

lemma taskCall_uncaught (cfg : Config) (env : Nat → AttemptEnv)
    (cbs : CallbackEnv) {e : Exc} {stx : St}
    (h : (callLoop cfg env).1 = .uncaughtE e stx) :
    taskCall cfg env cbs = (.raises e, (callLoop cfg env).2) := by
  unfold taskCall
  rw [h]

lemma taskCall_normal_falsy (cfg : Config) (env : Nat → AttemptEnv)
    (cbs : CallbackEnv) {stN : St}
    (h : (callLoop cfg env).1 = .normal stN)
    (ht : truthy stN.result = false) :
    taskCall cfg env cbs = (.returns none, (callLoop cfg env).2) := by
  unfold taskCall
  rw [h]
  simp [ht]

lemma taskCall_normal_truthy (cfg : Config) (env : Nat → AttemptEnv)
    (cbs : CallbackEnv) {stN : St}
    (h : (callLoop cfg env).1 = .normal stN)
    (ht : truthy stN.result = true) :
    (taskCall cfg env cbs).2 =
      (callLoop cfg env).2 ++ [.onSuccessCalled stN.payload] ∧
    ∃ v, (taskCall cfg env cbs).1 = .returns v := by
  unfold taskCall
  rw [h]
  rcases cbs with ⟨cbS | cbS, cbF⟩ <;> simp [ht]

lemma taskCall_retryErr (cfg : Config) (env : Nat → AttemptEnv)
    (cbs : CallbackEnv) {stF : St}
    (h : (callLoop cfg env).1 = .retryErr stF) :
    (taskCall cfg env cbs).2 =
      (callLoop cfg env).2 ++ [.onFailureCalled stF.payload] ∧
    ∃ v, (taskCall cfg env cbs).1 = .returns v := by
  unfold taskCall
  rw [h]
  rcases cbs with ⟨cbS, cbF | cbF⟩ <;> simp

lemma taskCall_normal_truthy_raisesE (cfg : Config) (env : Nat → AttemptEnv)
    (cbF : CbBehavior) (e : Exc) {stN : St}
    (h : (callLoop cfg env).1 = .normal stN)
    (ht : truthy stN.result = true) :
    taskCall cfg env ⟨.raisesE e, cbF⟩ =
      (.returns none, (callLoop cfg env).2 ++ [.onSuccessCalled stN.payload]) := by
  unfold taskCall
  rw [h]
  simp [ht]

lemma taskCall_retryErr_raisesE (cfg : Config) (env : Nat → AttemptEnv)
    (cbS : CbBehavior) (e : Exc) {stF : St}
    (h : (callLoop cfg env).1 = .retryErr stF) :
    taskCall cfg env ⟨cbS, .raisesE e⟩ =
      (.returns none, (callLoop cfg env).2 ++ [.onFailureCalled stF.payload]) := by
  unfold taskCall
  rw [h]

/-- The trace of `Task.__call__` is the loop's trace plus at most one trailing
callback event; the extra part holds no `run` invocation and no wait. -/
lemma taskCall_trace_char (cfg : Config) (env : Nat → AttemptEnv)
    (cbs : CallbackEnv) :
    ∃ extra, (taskCall cfg env cbs).2 = (callLoop cfg env).2 ++ extra ∧
      countRun extra = 0 ∧ countWait extra = 0 ∧
      countSuccess extra + countFailure extra ≤ 1 := by
  rcases hl : (callLoop cfg env).1 with stN | stF | ⟨e, stx⟩
  · cases ht : truthy stN.result
    · exact ⟨[], by rw [taskCall_normal_falsy cfg env cbs hl ht]; simp, by simp,
        by simp, by simp⟩
    · exact ⟨[.onSuccessCalled stN.payload],
        (taskCall_normal_truthy cfg env cbs hl ht).1, by simp, by simp, by simp⟩
  · exact ⟨[.onFailureCalled stF.payload],
      (taskCall_retryErr cfg env cbs hl).1, by simp, by simp, by simp⟩
  · exact ⟨[], by rw [taskCall_uncaught cfg env cbs hl]; simp, by simp,
      by simp, by simp⟩

example :
    taskCall ⟨3, 7, .FIREFOX⟩ (fun _ => .runReturns (.pyBool false) [])
        ⟨.returnsV none, .returnsV none⟩ =
      (.returns none,
        [.runInvoked 1, .waited 7, .runInvoked 2, .waited 7, .runInvoked 3,
         .onFailureCalled (some ⟨3, [("result", .pyBool false)]⟩)]) := by
  decide

example :
    taskCall ⟨3, 7, .FIREFOX⟩ (fun _ => .runReturns (.pyBool true) [])
        ⟨.returnsV none, .returnsV none⟩ =
      (.returns none,
        [.runInvoked 1, .onSuccessCalled (some ⟨1, [("result", .pyBool true)]⟩)]) := by
  decide

example :
    taskCall ⟨3, 7, .OTHER "x"⟩ (fun _ => .runReturns (.pyBool true) [])
        ⟨.returnsV none, .returnsV none⟩ =
      (.raises (.valueError "Unknown Driver Type: x"), []) := by
  decide

example :
    taskCall ⟨3, 7, .FIREFOX⟩ (fun _ => .runReturns .pyNone [])
        ⟨.returnsV none, .returnsV none⟩ =
      (.returns none, [.runInvoked 1]) := by
  decide

example :
    taskCall ⟨3, 7, .CHROME⟩
        (fun a => if a = 1 then .runRaises (.userExc 5) (some [("k", .pyInt 2)])
                  else .setupFail (.userExc 9))
        ⟨.returnsV none, .returnsV none⟩ =
      (.raises (.userExc 9), [.runInvoked 1, .waited 7]) := by
  decide

/-- C1: for every task whose `run` returns `False` or raises on every
attempt (with a valid driver and at least one configured attempt),
`Task.__call__` invokes `run` exactly `BOT_MAX_RETRIES` times and then
invokes `on_failure` exactly once. -/
theorem taskCall_exhausts_retries_then_on_failure
    (cfg : Config) (env : Nat → AttemptEnv) (cbs : CallbackEnv)
    (hv : cfg.validDriver = true) (hN : 1 ≤ cfg.BOT_MAX_RETRIES)
    (hf : ∀ k, failedAttempt (env k) = true) :
    countRun (taskCall cfg env cbs).2 = cfg.BOT_MAX_RETRIES ∧
    countFailure (taskCall cfg env cbs).2 = 1 := by
  obtain ⟨h1, h2, h3⟩ := loop_all_failed cfg env hv hf
    (cfg.BOT_MAX_RETRIES - 1) 1 ⟨.pyBool false, none⟩
  rw [← callLoop_eq] at h1 h2 h3
  obtain ⟨htr, -⟩ := taskCall_retryErr cfg env cbs h1
  have hcb := loop_no_callbacks cfg env (cfg.BOT_MAX_RETRIES - 1) 1
    ⟨.pyBool false, none⟩
  rw [← callLoop_eq] at hcb
  constructor
  · rw [htr, countRun_append, h2]
    simp
    omega
  · rw [htr, countFailure_append, hcb.2]
    simp

/-- C1 witness: 3 attempts of an always-raising `run` give 3 `run`
invocations and one `on_failure` invocation. -/
theorem taskCall_exhausts_retries_witness :
    countRun (taskCall cfgSample envAllRaise cbsReturn).2 =
      cfgSample.BOT_MAX_RETRIES ∧
    countFailure (taskCall cfgSample envAllRaise cbsReturn).2 = 1 :=
  taskCall_exhausts_retries_then_on_failure cfgSample envAllRaise cbsReturn
    rfl (by decide) (fun _ => rfl)

/-- C5: when both callbacks raise, `Task.__call__` catches the callback
exception and returns `None` whenever a callback was actually invoked: no
callback exception reaches the caller. -/
theorem taskCall_swallows_callback_exceptions (cfg : Config)
    (env : Nat → AttemptEnv) (e₁ e₂ : Exc)
    (h : 1 ≤ countSuccess (taskCall cfg env ⟨.raisesE e₁, .raisesE e₂⟩).2 +
          countFailure (taskCall cfg env ⟨.raisesE e₁, .raisesE e₂⟩).2) :
    (taskCall cfg env ⟨.raisesE e₁, .raisesE e₂⟩).1 = .returns none := by
  rcases hl : (callLoop cfg env).1 with stN | stF | ⟨e, stx⟩
  · cases ht : truthy stN.result
    · rw [taskCall_normal_falsy cfg env _ hl ht]
    · rw [taskCall_normal_truthy_raisesE cfg env (.raisesE e₂) e₁ hl ht]
  · rw [taskCall_retryErr_raisesE cfg env (.raisesE e₁) e₂ hl]
  · exfalso
    rw [taskCall_uncaught cfg env _ hl] at h
    have hcb := loop_no_callbacks cfg env (cfg.BOT_MAX_RETRIES - 1) 1
      ⟨.pyBool false, none⟩
    rw [← callLoop_eq] at hcb
    simp only at h
    omega

/-- C5 witness: a succeeding run with a raising `on_success` still returns
`None` to the caller. -/
theorem taskCall_swallows_callback_exceptions_witness :
    (taskCall cfgSample envAllTrue cbsRaise).1 = .returns none :=
  taskCall_swallows_callback_exceptions cfgSample envAllTrue
    (.userExc 11) (.userExc 12) (by decide)

/-- C9: when the configured driver type is neither Firefox nor Chrome,
`Task.__call__` raises the `ValueError` to its caller: `run` is never
invoked, there is no retry and no wait, and neither callback fires (the
whole event trace is empty). -/
theorem taskCall_unknown_driver_raises (cfg : Config)
    (env : Nat → AttemptEnv) (cbs : CallbackEnv) (name : String)
    (hd : cfg.BOT_DRIVER_TYPE = .OTHER name) :
    taskCall cfg env cbs =
      (.raises (.valueError ("Unknown Driver Type: " ++ name)), []) := by
  have hb : attemptBody cfg 1 (env 1) ⟨.pyBool false, none⟩ =
      (⟨.pyBool false, none⟩,
       .exc (.valueError ("Unknown Driver Type: " ++ name)), []) := by
    unfold attemptBody
    rw [hd]
  have hl := retryingLoop_exc (cfg.BOT_MAX_RETRIES - 1) hb
  rw [← callLoop_eq] at hl
  have h1 : (callLoop cfg env).1 =
      .uncaughtE (.valueError ("Unknown Driver Type: " ++ name))
        ⟨.pyBool false, none⟩ := by
    rw [hl]
  rw [taskCall_uncaught cfg env cbs h1, hl]

/-- C9 witness: a driver type `OTHER "edge"` makes the call raise at once. -/
theorem taskCall_unknown_driver_witness :
    taskCall ⟨3, 1, .OTHER "edge"⟩ envAllTrue cbsReturn =
      (.raises (.valueError ("Unknown Driver Type: " ++ "edge")), []) :=
  taskCall_unknown_driver_raises ⟨3, 1, .OTHER "edge"⟩ envAllTrue cbsReturn
    "edge" rfl

/-- C10: in every single execution of `Task.__call__`, the total number of
callback invocations (`on_success` plus `on_failure`) is at most one. -/
theorem taskCall_at_most_one_callback (cfg : Config)
    (env : Nat → AttemptEnv) (cbs : CallbackEnv) :
    countSuccess (taskCall cfg env cbs).2 +
      countFailure (taskCall cfg env cbs).2 ≤ 1 := by
  obtain ⟨extra, htr, -, -, hle⟩ := taskCall_trace_char cfg env cbs
  have hcb := loop_no_callbacks cfg env (cfg.BOT_MAX_RETRIES - 1) 1
    ⟨.pyBool false, none⟩
  rw [← callLoop_eq] at hcb
  rw [htr, countSuccess_append, countFailure_append, hcb.1, hcb.2]
  omega

/-- C2: `on_success` is invoked exactly when some invoked attempt's `run`
returned a truthy value, and it receives the payload collected during that
very run (the bot's payload of that attempt, with the `"result"` key set). -/
theorem taskCall_on_success_iff_truthy (cfg : Config)
    (env : Nat → AttemptEnv) (cbs : CallbackEnv) :
    (countSuccess (taskCall cfg env cbs).2 = 1 ↔
      ∃ b v data, Event.runInvoked b ∈ (taskCall cfg env cbs).2 ∧
        env b = .runReturns v data ∧ truthy v = true) ∧
    (∀ p, Event.onSuccessCalled p ∈ (taskCall cfg env cbs).2 →
      ∃ b v data, env b = .runReturns v data ∧ truthy v = true ∧
        p = some ⟨b, setKey data "result" v⟩) := by
  have hcb := loop_no_callbacks cfg env (cfg.BOT_MAX_RETRIES - 1) 1
    ⟨.pyBool false, none⟩
  have hshape := loop_events_shape cfg env (cfg.BOT_MAX_RETRIES - 1) 1
    ⟨.pyBool false, none⟩
  rw [← callLoop_eq] at hcb hshape
  have hnos : ∀ p, Event.onSuccessCalled p ∉ (callLoop cfg env).2 := by
    intro p hp
    rcases hshape _ hp with ⟨b, h⟩ | h <;> simp at h
  have hrun : ∀ b v data, Event.runInvoked b ∈ (callLoop cfg env).2 →
      env b = .runReturns v data → truthy v = true →
      (callLoop cfg env).1 = .normal ⟨v, some ⟨b, setKey data "result" v⟩⟩ := by
    intro b v data hmem hEnv htv
    have h := loop_run_char cfg env (cfg.BOT_MAX_RETRIES - 1) 1
      ⟨.pyBool false, none⟩ b v data (by rw [callLoop_eq] at hmem; exact hmem)
      hEnv (truthy_is_false htv)
    rw [callLoop_eq]
    exact h
  rcases hl : (callLoop cfg env).1 with stN | stF | ⟨e, stx⟩
  · cases ht : truthy stN.result
    · have hfull := taskCall_normal_falsy cfg env cbs hl ht
      have htr : (taskCall cfg env cbs).2 = (callLoop cfg env).2 := by
        rw [hfull]
      constructor
      · constructor
        · intro hc
          rw [htr, hcb.1] at hc
          exact absurd hc (by simp)
        · rintro ⟨b, v, data, hmem, hEnv, htv⟩
          rw [htr] at hmem
          have hx := hrun b v data hmem hEnv htv
          rw [hl] at hx
          have hstN : stN = ⟨v, some ⟨b, setKey data "result" v⟩⟩ := by
            simpa using hx
          rw [hstN] at ht
          have ht' : truthy v = false := ht
          rw [htv] at ht'
          exact absurd ht' (by simp)
      · intro p hp
        rw [htr] at hp
        exact absurd hp (hnos p)
    · obtain ⟨htr, -⟩ := taskCall_normal_truthy cfg env cbs hl ht
      have hchar := loop_normal_char cfg env (cfg.BOT_MAX_RETRIES - 1) 1
        ⟨.pyBool false, none⟩ stN (by rw [callLoop_eq] at hl; exact hl)
      rw [← callLoop_eq] at hchar
      obtain ⟨b, v, data, hEnv, hfv, hstN, hmem⟩ := hchar
      have htv : truthy v = true := by
        rw [hstN] at ht
        exact ht
      constructor
      · constructor
        · intro _
          exact ⟨b, v, data, by rw [htr]; exact List.mem_append_left _ hmem,
            hEnv, htv⟩
        · intro _
          rw [htr, countSuccess_append, hcb.1]
          simp
      · intro p hp
        rw [htr] at hp
        rcases List.mem_append.mp hp with hm | hm
        · exact absurd hm (hnos p)
        · have hps : p = stN.payload := by simpa using hm
          refine ⟨b, v, data, hEnv, htv, ?_⟩
          rw [hps, hstN]
  · obtain ⟨htr, -⟩ := taskCall_retryErr cfg env cbs hl
    constructor
    · constructor
      · intro hc
        rw [htr, countSuccess_append, hcb.1] at hc
        exact absurd hc (by simp)
      · rintro ⟨b, v, data, hmem, hEnv, htv⟩
        rw [htr] at hmem
        rcases List.mem_append.mp hmem with hm | hm
        · have hx := hrun b v data hm hEnv htv
          rw [hl] at hx
          exact absurd hx (by simp)
        · exact absurd hm (by simp)
    · intro p hp
      rw [htr] at hp
      rcases List.mem_append.mp hp with hm | hm
      · exact absurd hm (hnos p)
      · exact absurd hm (by simp)
  · have hfull := taskCall_uncaught cfg env cbs hl
    have htr : (taskCall cfg env cbs).2 = (callLoop cfg env).2 := by
      rw [hfull]
    constructor
    · constructor
      · intro hc
        rw [htr, hcb.1] at hc
        exact absurd hc (by simp)
      · rintro ⟨b, v, data, hmem, hEnv, htv⟩
        rw [htr] at hmem
        have hx := hrun b v data hmem hEnv htv
        rw [hl] at hx
        exact absurd hx (by simp)
    · intro p hp
      rw [htr] at hp
      exact absurd hp (hnos p)

/-- C2 witness: a first attempt returning `True` invokes `on_success` once. -/
theorem taskCall_on_success_witness :
    countSuccess (taskCall cfgSample envAllTrue cbsReturn).2 = 1 :=
  (taskCall_on_success_iff_truthy cfgSample envAllTrue cbsReturn).1.mpr
    ⟨1, .pyBool true, [], by decide, rfl, rfl⟩

/-- C3 counterexample: with a valid (Firefox) driver, 3 configured attempts
and a bot construction that raises on every attempt, the exception escapes
`Task.__call__` on the very first attempt: `run` is never invoked (0 ≠ 3
attempts) and no retry, wait, or callback happens. -/
theorem setup_exception_escapes_cex :
    taskCall cfgSample envSetupRaise cbsReturn = (.raises (.userExc 7), []) ∧
    countRun (taskCall cfgSample envSetupRaise cbsReturn).2 ≠
      cfgSample.BOT_MAX_RETRIES := by
  decide

/-- C3 amended: exceptions raised by the `run` method itself are caught,
logged, and treated as a failed attempt, with retrying continuing up to the
configured limit, and no such exception escapes `__call__`; but this only
covers exceptions raised inside the body's inner `try` — an exception during
driver construction or while entering the bot context escapes `__call__`
immediately (see the counterexample). -/
theorem taskCall_run_exceptions_retried (cfg : Config)
    (env : Nat → AttemptEnv) (cbs : CallbackEnv)
    (hv : cfg.validDriver = true) (hN : 1 ≤ cfg.BOT_MAX_RETRIES)
    (hs : ∀ k ex, env k ≠ .setupFail ex) :
    (∀ e, (taskCall cfg env cbs).1 ≠ .raises e) ∧
    (∀ a e c, Event.runInvoked a ∈ (taskCall cfg env cbs).2 →
      env a = .runRaises e c → a < cfg.BOT_MAX_RETRIES →
      Event.runInvoked (a + 1) ∈ (taskCall cfg env cbs).2) := by
  constructor
  · intro e hres
    rcases hl : (callLoop cfg env).1 with stN | stF | ⟨ex, stx⟩
    · cases ht : truthy stN.result
      · rw [taskCall_normal_falsy cfg env cbs hl ht] at hres
        exact absurd hres (by simp)
      · obtain ⟨-, w, hw⟩ := taskCall_normal_truthy cfg env cbs hl ht
        rw [hw] at hres
        exact absurd hres (by simp)
    · obtain ⟨-, w, hw⟩ := taskCall_retryErr cfg env cbs hl
      rw [hw] at hres
      exact absurd hres (by simp)
    · have hnu := loop_no_uncaught cfg env hv hs (cfg.BOT_MAX_RETRIES - 1) 1
        ⟨.pyBool false, none⟩ ex stx
      rw [← callLoop_eq] at hnu
      exact hnu hl
  · intro a e c hmem hEnv hlt
    obtain ⟨extra, htr, hexr, -, -⟩ := taskCall_trace_char cfg env cbs
    rw [htr] at hmem ⊢
    rcases List.mem_append.mp hmem with hm | hm
    · apply List.mem_append_left
      have hcont := loop_retry_continues cfg env hv hs
        (cfg.BOT_MAX_RETRIES - 1) 1 ⟨.pyBool false, none⟩ a
        (by rw [callLoop_eq] at hm; exact hm)
        (by rw [hEnv]; rfl) (by omega)
      rw [← callLoop_eq] at hcont
      exact hcont
    · exfalso
      have hz := List.countP_eq_zero.mp hexr _ hm
      simp at hz

/-- C3 amended witness: with `run` raising at attempt 1 (below the limit of
3), attempt 2 is still started. -/
theorem taskCall_run_exceptions_retried_witness :
    Event.runInvoked 2 ∈ (taskCall cfgSample envAllRaise cbsReturn).2 :=
  (taskCall_run_exceptions_retried cfgSample envAllRaise cbsReturn rfl
      (by decide) (fun k ex h => by simp [envAllRaise] at h)).2
    1 (.userExc 0) none (by decide) rfl (by decide)

/-- C4 counterexample: with 2 attempts, attempt 1's `run` raises but its
payload is collected, while attempt 2's `run` raises and its payload
collection also fails, so line 130 resets `payload = None`: `on_failure`
receives `None` even though a payload was collected on attempt 1 — the
earlier payload is lost, contradicting the claim. -/
theorem on_failure_loses_earlier_payload_cex :
    taskCall ⟨2, 1, .FIREFOX⟩ envPayloadLost cbsReturn =
      (.returns none,
       [.runInvoked 1, .waited 1, .runInvoked 2, .onFailureCalled none]) ∧
    collectedPayload 1 (envPayloadLost 1) =
      some ⟨1, [("k", .pyInt 9), ("result", .pyBool false)]⟩ := by
  decide

/-- C4 amended: when retries are exhausted, `on_failure` is invoked with the
payload state left by the LAST attempt — the payload collected on the final
attempt, or `None` if the final attempt's collection failed (even when an
earlier attempt had collected one). -/
theorem taskCall_on_failure_last_payload (cfg : Config)
    (env : Nat → AttemptEnv) (cbs : CallbackEnv)
    (hv : cfg.validDriver = true) (hN : 1 ≤ cfg.BOT_MAX_RETRIES)
    (hf : ∀ k, failedAttempt (env k) = true) :
    Event.onFailureCalled
        (collectedPayload cfg.BOT_MAX_RETRIES (env cfg.BOT_MAX_RETRIES)) ∈
      (taskCall cfg env cbs).2 ∧
    countFailure (taskCall cfg env cbs).2 = 1 := by
  obtain ⟨h1, -, -⟩ := loop_all_failed cfg env hv hf
    (cfg.BOT_MAX_RETRIES - 1) 1 ⟨.pyBool false, none⟩
  rw [← callLoop_eq] at h1
  have hone : 1 + (cfg.BOT_MAX_RETRIES - 1) = cfg.BOT_MAX_RETRIES := by omega
  rw [hone] at h1
  obtain ⟨htr, -⟩ := taskCall_retryErr cfg env cbs h1
  have hcb := loop_no_callbacks cfg env (cfg.BOT_MAX_RETRIES - 1) 1
    ⟨.pyBool false, none⟩
  rw [← callLoop_eq] at hcb
  constructor
  · rw [htr]
    apply List.mem_append_right
    simp
  · rw [htr, countFailure_append, hcb.2]
    simp

/-- C4 amended witness: with the lost-payload environment and 2 attempts,
`on_failure` receives exactly the last attempt's (failed) collection,
`None`. -/
theorem taskCall_on_failure_last_payload_witness :
    Event.onFailureCalled
        (collectedPayload 2 (envPayloadLost 2)) ∈
      (taskCall ⟨2, 1, .FIREFOX⟩ envPayloadLost cbsReturn).2 :=
  (taskCall_on_failure_last_payload ⟨2, 1, .FIREFOX⟩ envPayloadLost cbsReturn
      rfl (by decide) (fun k => by
        by_cases h : k = 1 <;> simp [envPayloadLost, h, failedAttempt])).1

/-- C6: every wait in a `Task.__call__` trace is exactly the configured
`BOT_RETRY_DELAY` (no backoff growth), and whenever `__call__` returns
normally there is exactly one wait between consecutive attempts: one fewer
wait than `run` invocations. -/
theorem taskCall_fixed_delay (cfg : Config) (env : Nat → AttemptEnv)
    (cbs : CallbackEnv) :
    (∀ d, Event.waited d ∈ (taskCall cfg env cbs).2 →
      d = cfg.BOT_RETRY_DELAY) ∧
    (∀ v, (taskCall cfg env cbs).1 = .returns v →
      countWait (taskCall cfg env cbs).2 + 1 =
        countRun (taskCall cfg env cbs).2) := by
  have hshape := loop_events_shape cfg env (cfg.BOT_MAX_RETRIES - 1) 1
    ⟨.pyBool false, none⟩
  rw [← callLoop_eq] at hshape
  obtain ⟨extra, htr, hex1, hex2, -⟩ := taskCall_trace_char cfg env cbs
  constructor
  · intro d hd
    rw [htr] at hd
    rcases List.mem_append.mp hd with hm | hm
    · rcases hshape _ hm with ⟨b, h⟩ | h
      · exact absurd h (by simp)
      · simpa using h
    · exfalso
      have hz := List.countP_eq_zero.mp hex2 _ hm
      simp at hz
  · intro v hres
    have hnu : ∀ e stx, (callLoop cfg env).1 ≠ .uncaughtE e stx := by
      intro e stx hq
      rw [taskCall_uncaught cfg env cbs hq] at hres
      exact absurd hres (by simp)
    have hwc := loop_wait_count cfg env (cfg.BOT_MAX_RETRIES - 1) 1
      ⟨.pyBool false, none⟩ (by
        intro e stx
        rw [← callLoop_eq]
        exact hnu e stx)
    rw [← callLoop_eq] at hwc
    rw [htr, countWait_append, countRun_append, hex1, hex2]
    omega

/-- C6 witness: a failing 3-attempt run waits twice, each time the
configured delay, one fewer wait than the 3 `run` invocations. -/
theorem taskCall_fixed_delay_witness :
    countWait (taskCall cfgSample envAllRaise cbsReturn).2 + 1 =
      countRun (taskCall cfgSample envAllRaise cbsReturn).2 :=
  (taskCall_fixed_delay cfgSample envAllRaise cbsReturn).2 none (by decide)

/-- C7: every payload object an attempt body hands back was freshly
constructed by that attempt — it carries that attempt's bot identity — so
payload (and bot) objects of two different attempts are never the same
object, and no attempt reuses an earlier attempt's object. -/
theorem attemptBody_fresh_payload (cfg : Config) (a b : Nat)
    (e e' : AttemptEnv) (st st' : St) :
    ((attemptBody cfg a e st).2.1 = .ok →
      ∀ p, (attemptBody cfg a e st).1.payload = some p → p.botId = a) ∧
    ((attemptBody cfg a e st).2.1 = .ok →
      (attemptBody cfg b e' st').2.1 = .ok → a ≠ b →
      ∀ p q, (attemptBody cfg a e st).1.payload = some p →
        (attemptBody cfg b e' st').1.payload = some q → p ≠ q) := by
  have hgen : ∀ (c : Nat) (ee : AttemptEnv) (ss : St),
      (attemptBody cfg c ee ss).2.1 = .ok →
      ∀ p, (attemptBody cfg c ee ss).1.payload = some p → p.botId = c := by
    intro c ee ss hok p hp
    have hb := attemptBody_ok cfg c ee ss hok
    obtain ⟨-, -, hns⟩ := attemptBody_ok_char hb
    rw [hb] at hp
    have hp' : (bodyStepSt c ee ss).payload = some p := hp
    rw [bodyStepSt_payload c ee ss hns] at hp'
    rcases ee with ex | ⟨v, data⟩ | ⟨ex, _ | data⟩
    · exact absurd rfl (hns ex)
    · simp only [collectedPayload] at hp'
      obtain rfl := Option.some.inj hp'
      rfl
    · exact absurd hp' (by simp [collectedPayload])
    · simp only [collectedPayload] at hp'
      obtain rfl := Option.some.inj hp'
      rfl
  constructor
  · exact hgen a e st
  · intro hok1 hok2 hne p q hp hq hpq
    have h1 := hgen a e st hok1 p hp
    have h2 := hgen b e' st' hok2 q hq
    apply hne
    rw [← h1, ← h2, hpq]

/-- C7 witness: the payloads constructed by attempts 1 and 2 are distinct
objects. -/
theorem attemptBody_fresh_payload_witness :
    (⟨1, [("result", .pyBool true)]⟩ : Payload) ≠ ⟨2, [("result", .pyBool true)]⟩ :=
  (attemptBody_fresh_payload cfgSample 1 2 (.runReturns (.pyBool true) [])
      (.runReturns (.pyBool true) []) ⟨.pyBool false, none⟩
      ⟨.pyBool false, none⟩).2 rfl rfl (by decide)
    ⟨1, [("result", .pyBool true)]⟩ ⟨2, [("result", .pyBool true)]⟩
    (by decide) (by decide)

/-- C8: when the first attempt's `run` returns a falsy value that is not the
`False` singleton (such as `None` or `0`), `Task.__call__` does not retry —
`__is_false__` checks identity with `False` — and invokes neither callback,
returning `None`; the whole trace is the single `run` invocation. -/
theorem taskCall_falsy_non_false_no_retry (cfg : Config)
    (env : Nat → AttemptEnv) (cbs : CallbackEnv) (v : PyVal)
    (data : List (String × PyVal))
    (hv : cfg.validDriver = true) (h1 : env 1 = .runReturns v data)
    (ht : truthy v = false) (hnf : v ≠ .pyBool false) :
    taskCall cfg env cbs = (.returns none, [.runInvoked 1]) := by
  have hfv : is_false v = false := by
    cases hq : is_false v
    · rfl
    · exact absurd ((is_false_iff v).mp hq) hnf
  have hb := attemptBody_not_setup cfg hv 1 (env 1) ⟨.pyBool false, none⟩
    (by rw [h1]; intro ex; simp)
  have hst : bodyStepSt 1 (env 1) ⟨.pyBool false, none⟩ =
      ⟨v, some ⟨1, setKey data "result" v⟩⟩ := by
    rw [h1]
    rfl
  rw [hst] at hb
  have hfv2 :
      is_false (St.mk v (some ⟨1, setKey data "result" v⟩)).result = false := hfv
  have hloop := retryingLoop_normal (cfg.BOT_MAX_RETRIES - 1) hb hfv2
  rw [← callLoop_eq] at hloop
  have hl1 : (callLoop cfg env).1 =
      .normal ⟨v, some ⟨1, setKey data "result" v⟩⟩ := by
    rw [hloop]
  have ht2 :
      truthy (St.mk v (some ⟨1, setKey data "result" v⟩)).result = false := ht
  rw [taskCall_normal_falsy cfg env cbs hl1 ht2, hloop]

/-- C8 witness: `run` returning `None` on attempt 1 gives a single attempt,
no callbacks, and a `None` return. -/
theorem taskCall_falsy_non_false_witness :
    taskCall cfgSample envAllNone cbsReturn = (.returns none, [.runInvoked 1]) :=
  taskCall_falsy_non_false_no_retry cfgSample envAllNone cbsReturn .pyNone []
    rfl rfl rfl (by decide)
